import Mathlib

/-!
A shallow embedding of the svglinkify pipeline (svglinkify.py), covering:
unit and geometry resolution, page/object intersection and placement,
the link catalog, annotation synthesis (actions, rectangles, object ids),
and the QDF buffer edit (per-page annotation-list rewrite and the splice
of new annotation objects before the cross-reference table).

Numeric values are modelled as exact rationals; Python floats in the source
carry decimal literals that are represented here by the corresponding
rationals.  Python exceptions are modelled by an explicit error type:
the program's own `Error` class is one constructor, and the builtin
exceptions that the source can raise (KeyError, ValueError, TypeError,
AttributeError) are separate constructors, because the top-level handler
catches only `Error`.
-/

/-- Python exceptions that the modelled code can raise.  `error` is the
program's own `Error` class (svglinkify.py line 11); the rest are builtins. -/
inductive PyExc where
  | keyError
  | valueError
  | typeError
  | attributeError
  | error (msg : String)
deriving DecidableEq

/-- An axis-aligned rectangle given by origin and extent, the common shape of
the page and object dictionaries (`{x, y, w, h}`) in svglinkify.py. -/
structure Rect where
  x : ℚ
  y : ℚ
  w : ℚ
  h : ℚ
deriving DecidableEq

/-- svglinkify.py lines 15-23: closed-bound rectangle intersection test. -/
def intersected (a b : Rect) : Bool :=
  let ax1 := a.x
  let ay1 := a.y
  let ax2 := a.x + a.w
  let ay2 := a.y + a.h
  let bx1 := b.x
  let by1 := b.y
  let bx2 := b.x + b.w
  let by2 := b.y + b.h
  !(ax1 > bx2 || ax2 < bx1 || ay1 > by2 || ay2 < by1)

/-- The unit suffixes accepted by the width/height attribute regex
(svglinkify.py line 62): `px|pt|mm|pc|cm|in`. -/
inductive SvgUnit where
  | px
  | pt
  | mm
  | pc
  | cm
  | inch
deriving DecidableEq

/-- svglinkify.py lines 51-58: fixed pixels-per-unit table `unit_2_px`. -/
def unit_2_px : SvgUnit → ℚ
  | .px => 1
  | .pt => 133333333333333 / 100000000000000
  | .mm => 37795 / 10000
  | .pc => 16
  | .cm => 37795 / 1000
  | .inch => 96

/-- The root element's geometry attributes as seen by the regexes of
svglinkify.py lines 61-77.  A field is `none` exactly when the corresponding
`re.search` returns `None`, i.e. when the attribute is absent or its value is
not numeric (the regex requires `[0-9.]+`); in both cases the source then
calls `.groups()` on `None`. -/
structure SvgRoot where
  width : Option (ℚ × Option SvgUnit)
  height : Option (ℚ × Option SvgUnit)
  viewBox : Option (ℚ × ℚ × ℚ × ℚ)

/-- Output of the unit and geometry resolution step (svglinkify.py
lines 78-81). -/
structure DocGeometry where
  svg_width_pixels : ℚ
  svg_height_pixels : ℚ
  x_scale : ℚ
  y_scale : ℚ
deriving DecidableEq

/-- svglinkify.py lines 60-81: resolve width/height/viewBox into pixel sizes
and per-axis scales.  A missing unit suffix means `px` (lines 64-65, 69-70).
When an attribute regex does not match, the source dereferences `None` and
Python raises `AttributeError`, which nothing in the program catches. -/
def resolveGeometry (root : SvgRoot) : Except PyExc DocGeometry :=
  match root.width with
  | none => .error .attributeError
  | some (w, wu) =>
    match root.height with
    | none => .error .attributeError
    | some (h, hu) =>
      match root.viewBox with
      | none => .error .attributeError
      | some (_, _, vw, vh) =>
        let svg_width_pixels := unit_2_px (wu.getD .px) * w
        let svg_height_pixels := unit_2_px (hu.getD .px) * h
        .ok { svg_width_pixels := svg_width_pixels
              svg_height_pixels := svg_height_pixels
              x_scale := svg_width_pixels / vw
              y_scale := svg_height_pixels / vh }

/-- A page record (svglinkify.py lines 91-105), already scaled to pixels. -/
structure Page where
  number : Nat
  x : ℚ
  y : ℚ
  w : ℚ
  h : ℚ
deriving DecidableEq

/-- One entry of an object's `page_locs` list (svglinkify.py lines 132-138). -/
structure PageLoc where
  page : Nat
  x : ℚ
  y : ℚ
deriving DecidableEq

/-- An object record from the bounding-box catalog (svglinkify.py
lines 117-124). -/
structure SvgObj where
  id : String
  x : ℚ
  y : ℚ
  w : ℚ
  h : ℚ
  page_locs : List PageLoc
deriving DecidableEq

def Page.rect (p : Page) : Rect := ⟨p.x, p.y, p.w, p.h⟩

def SvgObj.rect (o : SvgObj) : Rect := ⟨o.x, o.y, o.w, o.h⟩

/-- Body of the placement loop (svglinkify.py lines 130-138) for one page and
one object: on intersection, append the page-local offset. -/
def placeOnPage (page : Page) (o : SvgObj) : SvgObj :=
  if intersected page.rect o.rect then
    { o with page_locs := o.page_locs ++ [⟨page.number, o.x - page.x, o.y - page.y⟩] }
  else o

/-- svglinkify.py lines 129-138: the nested placement loop, pages outer,
objects inner, appending one PageLocation per intersecting page. -/
def resolvePlacements (pages : List Page) (objs : List SvgObj) : List SvgObj :=
  pages.foldl (fun acc page => acc.map (placeOnPage page)) objs

/-- Replace every occurrence of the character `c` by `rep`, one model of one
Python `str.replace` call with a single-character pattern. -/
def replaceChar (c : Char) (rep : List Char) : List Char → List Char
  | [] => []
  | d :: rest =>
    if d = c then rep ++ replaceChar c rep rest else d :: replaceChar c rep rest

/-- svglinkify.py line 150: `href.replace("(", "%28").replace(")", "%29")`,
applied to every href at link-catalog time. -/
def escapeHref (s : String) : String :=
  ⟨replaceChar ')' "%29".data (replaceChar '(' "%28".data s.data)⟩

/-- Model of Python `s.startswith(marker)`. -/
def pyStartsWith (marker s : String) : Bool := marker.data.isPrefixOf s.data

/-- Model of Python `s[1:]`. -/
def pyDrop1 (s : String) : String := ⟨s.data.drop 1⟩

/-- Python dict assignment `d[k] = v` on a dict modelled as an association
list in insertion order: overwrite in place if the key exists, else append. -/
def dictSet (links : List (String × String)) (k v : String) : List (String × String) :=
  if links.any (fun kv => kv.1 = k) then
    links.map (fun kv => if kv.1 = k then (k, v) else kv)
  else links ++ [(k, v)]

/-- svglinkify.py lines 142-151: scan anchors for id and href; skip anchors
missing either; escape parentheses; later declarations overwrite earlier
ones (`links[id] = href`). -/
def buildLinks (anchors : List (Option String × Option String)) : List (String × String) :=
  anchors.foldl
    (fun links a =>
      match a with
      | (some i, some h) => dictSet links i (escapeHref h)
      | _ => links)
    []

/-- Python dict lookup `d.get(k)` on an association list. -/
def lookupLink (links : List (String × String)) (k : String) : Option String :=
  (links.find? (fun kv => kv.1 = k)).map (·.2)

/-- Object id and generation of a PDF page object (svglinkify.py
lines 228-231). -/
structure PdfPage where
  obj_id : Nat
  obj_gen : Nat
deriving DecidableEq

/-- The action dictionary of a synthesized link annotation: either the
`/GoTo` body built on svglinkify.py lines 253-258, or the `/URI` body of
line 260 carrying the (already escaped) href. -/
inductive PdfAction where
  | goTo (objId gen : Nat) (px py : ℚ)
  | uri (s : String)
deriving DecidableEq

/-- One synthesized annotation object (svglinkify.py lines 265-281): its
freshly allocated object id, owning page number, action, and the four `/Rect`
components in the order they are emitted. -/
structure Draft where
  objId : Nat
  page : Nat
  action : PdfAction
  rect : List ℚ
deriving DecidableEq

/-- svglinkify.py line 235: `px_to_pt = 0.75`. -/
def px_to_pt : ℚ := 75 / 100

/-- `objects` dict lookup by object id (`objects.get` / `in objects`). -/
def findObj (objects : List SvgObj) (i : String) : Option SvgObj :=
  objects.find? (fun o => o.id = i)

/-- `pages` dict lookup by page number. -/
def findPage (pages : List Page) (n : Nat) : Option Page :=
  pages.find? (fun p => p.number = n)

/-- `pdf_pages` dict lookup by page number. -/
def findPdfPage (pps : List (Nat × PdfPage)) (n : Nat) : Option PdfPage :=
  (pps.find? (fun kv => kv.1 = n)).map (·.2)

/-- svglinkify.py line 250: `max(target["page_locs"], key=lambda q: q["y"])`.
Python's `max` keeps the first element and replaces it only on a strictly
greater key; on an empty sequence it raises `ValueError` (modelled by
`none`). -/
def pyMaxByY : List PageLoc → Option PageLoc
  | [] => none
  | l :: ls => some (ls.foldl (fun best q => if best.y < q.y then q else best) l)

/-- svglinkify.py lines 242-260: build the action for one link.  `.ok none`
models the `warn ... continue` branch for a missing internal target; a found
target with an empty `page_locs` list makes `max` raise `ValueError`; the
`pages[...]`/`pdf_pages[...]` dict subscripts raise `KeyError` when the key
is absent. -/
def buildAction (objects : List SvgObj) (pages : List Page)
    (pps : List (Nat × PdfPage)) (link_href : String) :
    Except PyExc (Option PdfAction) :=
  if pyStartsWith "#" link_href then
    match findObj objects (pyDrop1 link_href) with
    | none => .ok none
    | some target =>
      match pyMaxByY target.page_locs with
      | none => .error .valueError
      | some page_loc =>
        match findPage pages page_loc.page with
        | none => .error .keyError
        | some page =>
          match findPdfPage pps page.number with
          | none => .error .keyError
          | some pdf_page =>
            .ok (some (.goTo pdf_page.obj_id pdf_page.obj_gen
              (page_loc.x * px_to_pt) ((page.h - page_loc.y) * px_to_pt)))
  else
    .ok (some (.uri link_href))

/-- svglinkify.py lines 262-282: the inner loop over the source object's
`page_locs`, emitting one annotation object per location with a fresh object
id and the `/Rect` components in emission order (lines 275-278). -/
def emitDrafts (pages : List Page) (a : PdfAction) (o : SvgObj) :
    List PageLoc → Nat → Except PyExc (List Draft × Nat)
  | [], n => .ok ([], n)
  | loc :: rest, n =>
    match findPage pages loc.page with
    | none => .error .keyError
    | some page =>
      match emitDrafts pages a o rest (n + 1) with
      | .error e => .error e
      | .ok (ds, n2) =>
        .ok ({ objId := n
               page := loc.page
               action := a
               rect := [loc.x * px_to_pt,
                        (page.h - loc.y) * px_to_pt,
                        (loc.x + o.w) * px_to_pt,
                        (page.h - loc.y - o.h) * px_to_pt] } :: ds, n2)

/-- svglinkify.py lines 238-282: the full synthesis loop over the link
catalog, threading `next_object_id`.  Links whose source id is not in the
object catalog are skipped (line 239-240), as are internal links with a
missing target (lines 243-246). -/
def addLinks (objects : List SvgObj) (pages : List Page)
    (pps : List (Nat × PdfPage)) :
    List (String × String) → Nat → Except PyExc (List Draft × Nat)
  | [], n => .ok ([], n)
  | (link_id, link_href) :: rest, n =>
    match findObj objects link_id with
    | none => addLinks objects pages pps rest n
    | some link_object =>
      match buildAction objects pages pps link_href with
      | .error e => .error e
      | .ok none => addLinks objects pages pps rest n
      | .ok (some a) =>
        match emitDrafts pages a link_object link_object.page_locs n with
        | .error e => .error e
        | .ok (ds, n2) =>
          match addLinks objects pages pps rest n2 with
          | .error e => .error e
          | .ok (ds2, n3) => .ok (ds ++ ds2, n3)

/-- All pages of the locations looked up in order, `some` exactly when every
lookup succeeds. -/
def findPages (pages : List Page) : List PageLoc → Option (List Page)
  | [] => some []
  | l :: ls =>
    match findPage pages l.page, findPages pages ls with
    | some p, some ps => some (p :: ps)
    | _, _ => none

/-- ASCII whitespace stripped by Python's `bytes.strip()`. -/
def isPyWs (c : Char) : Bool :=
  c = ' ' || c = '\t' || c = '\n' || c = '\r' || c = '\x0b' || c = '\x0c'

/-- Python `s.strip()`. -/
def pyStrip (s : String) : String :=
  ⟨((s.data.dropWhile isPyWs).reverse.dropWhile isPyWs).reverse⟩

/-- Remove every occurrence of `pat` from a character list, scanning left to
right, the effect of `re.sub(pat, b"", s)` for a plain-text pattern.  The
`\b` word-boundary assertion of the source pattern is not modelled: the only
call site (svglinkify.py line 293) receives an always-empty subject string
(see `replace_annots_for_page`), where the boundary is immaterial. -/
def removeSub (pat : List Char) : List Char → List Char
  | [] => []
  | c :: rest =>
    if h : pat ≠ [] ∧ pat.isPrefixOf (c :: rest) then
      removeSub pat ((c :: rest).drop pat.length)
    else c :: removeSub pat rest
termination_by l => l.length
decreasing_by
  · rcases pat with _ | ⟨p, pt⟩
    · exact absurd rfl h.1
    · simp [List.length_drop]
      omega
  · simp

/-- The plain-text part of the pattern `rb"\b%d %d R" % (obj_id, gen_id)`
(svglinkify.py line 293). -/
def refBytes (objId gen : Nat) : String :=
  Nat.repr objId ++ " " ++ Nat.repr gen ++ " R"

/-- svglinkify.py line 293: delete one stale reference from a raw annotation
list. -/
def dropRef (objId gen : Nat) (r : String) : String :=
  ⟨removeSub (refBytes objId gen).data r.data⟩

/-- A page block of the QDF buffer, as carved out by the block regex
`^%% Page (\d+)$.*?^endobj$` (svglinkify.py lines 303-308): the text before
the line-start dictionary opener `<<`, the dictionary text, an optional
`/Annots [ ... ]` group (the capture of `/Annots\s+\[([^\]]+)\]`, present
exactly when that inner regex matches the block), and the rest of the block
through `endobj`. -/
structure PageBlock where
  pageNumber : Nat
  preOpen : String
  dictPre : String
  existingAnnots : Option String
  dictPost : String
deriving DecidableEq

/-- The bytes of a page block. -/
def PageBlock.render (b : PageBlock) : String :=
  b.preOpen ++ "<<" ++ b.dictPre ++
    (match b.existingAnnots with
     | some raw => "/Annots [" ++ raw ++ "]"
     | none => "") ++
    b.dictPost

/-- svglinkify.py lines 284-301: the per-page rewrite callback.

The source initializes `raw_annots = b""` and then runs
`re.sub(rb"/Annots\s+\[([^\]]+)\]", load_existing_annots, m.group(0))` where
the nested `load_existing_annots` assigns `raw_annots = m.group(1)` without a
`nonlocal` declaration — the assignment creates a variable local to the
callback and the outer `raw_annots` stays `b""` — and returns `None`; when
the pattern matches (the block has an existing `/Annots` list), `re.sub`
rejects the `None` replacement and Python raises `TypeError`.  When the
pattern does not match, the subject is returned unchanged and the loop over
`deleted_annots_object_ids` rewrites the still-empty `raw_annots`, the new
ids for this page are appended, and a non-empty stripped result is inserted
as a fresh `/Annots` entry right after the line-start `<<`. -/
def replace_annots_for_page (deleted : List (Nat × Nat))
    (pageAnnots : Nat → List Nat) (b : PageBlock) : Except PyExc PageBlock :=
  match b.existingAnnots with
  | some _ => .error .typeError
  | none =>
    let raw0 : String := ""
    let raw1 := deleted.foldl (fun r og => dropRef og.1 og.2 r) raw0
    let raw2 := (pageAnnots b.pageNumber).foldl
      (fun r oid => r ++ "\n" ++ Nat.repr oid ++ " 0 R\n") raw1
    let raw3 := pyStrip raw2
    if raw3 = "" then .ok b
    else .ok { b with dictPre := "\n/Annots [ " ++ raw3 ++ " ]" ++ b.dictPre }

/-- A piece of the QDF buffer: plain text, a page block (a match of the page
block regex), or a line consisting exactly of `xref` (a match of `^xref$`).
Raw pieces are understood to contain no page-block start and no xref line, so
the two `re.sub` passes of svglinkify.py lines 303-315 touch exactly the
`page` and `xref` pieces. -/
inductive BufPart where
  | raw (s : String)
  | page (b : PageBlock)
  | xref
deriving DecidableEq

/-- The bytes of a buffer piece. -/
def renderPart : BufPart → String
  | .raw s => s
  | .page b => b.render
  | .xref => "xref"

/-- The bytes of the whole buffer. -/
def renderBuf (parts : List BufPart) : String :=
  parts.foldl (fun acc p => acc ++ renderPart p) ""

/-- One step of the page-rewrite pass. -/
def editPart (deleted : List (Nat × Nat)) (pageAnnots : Nat → List Nat) :
    BufPart → Except PyExc BufPart
  | .page b => (replace_annots_for_page deleted pageAnnots b).map .page
  | p => .ok p

/-- svglinkify.py lines 303-308: `re.sub` of the page-block regex with
`replace_annots_for_page`; an exception in the callback propagates. -/
def editPages (deleted : List (Nat × Nat)) (pageAnnots : Nat → List Nat) :
    List BufPart → Except PyExc (List BufPart)
  | [] => .ok []
  | p :: rest =>
    match editPart deleted pageAnnots p, editPages deleted pageAnnots rest with
    | .ok p2, .ok rest2 => .ok (p2 :: rest2)
    | .error e, _ => .error e
    | _, .error e => .error e

/-- svglinkify.py lines 310-315: replace each `^xref$` line by the
concatenation of all rendered annotation objects followed by `\nxref`. -/
def spliceAnnots (annotObjs : List String) : List BufPart → List BufPart :=
  List.map fun p =>
    match p with
    | .xref => .raw ((annotObjs.foldl (· ++ ·) "") ++ "\nxref")
    | q => q

/-- The whole buffer edit (svglinkify.py lines 303-315): the page-rewrite
pass followed by the annotation splice before the cross-reference table. -/
def editBuffer (deleted : List (Nat × Nat)) (pageAnnots : Nat → List Nat)
    (annotObjs : List String) (parts : List BufPart) :
    Except PyExc (List BufPart) :=
  (editPages deleted pageAnnots parts).map (spliceAnnots annotObjs)

/-- The effect of `spliceAnnots []` on one piece: only the xref line changes,
gaining a newline in front. -/
def expandXref : BufPart → BufPart
  | .xref => .raw "\nxref"
  | p => p

/-- `true` when the piece is not a page block carrying an `/Annots` list. -/
def BufPart.noExistingAnnots : BufPart → Bool
  | .page b => b.existingAnnots.isNone
  | _ => true

/-- The outcome of the top-level runner. -/
inductive Outcome where
  | success
  | uniformFailure (msg : String)
  | traceback
deriving DecidableEq

def Outcome.isUniformFailure : Outcome → Bool
  | .uniformFailure _ => true
  | _ => false

/-- svglinkify.py lines 346-351: the `__main__` guard catches only the
program's own `Error` class and prints the uniform `error: ...` message; any
other exception escapes as an unhandled traceback. -/
def runTop (r : Except PyExc Unit) : Outcome :=
  match r with
  | .ok _ => .success
  | .error (.error m) => .uniformFailure ("error: " ++ m)
  | .error _ => .traceback

/-- Decidable equality for `Except`, used to evaluate the embedded
functions on concrete inputs. -/
instance {e a : Type} [DecidableEq e] [DecidableEq a] : DecidableEq (Except e a) :=
  fun x y =>
    match x, y with
    | .error u, .error v =>
      match decEq u v with
      | isTrue h => isTrue (h ▸ rfl)
      | isFalse h => isFalse (fun hc => h (Except.error.inj hc))
    | .ok u, .ok v =>
      match decEq u v with
      | isTrue h => isTrue (h ▸ rfl)
      | isFalse h => isFalse (fun hc => h (Except.ok.inj hc))
    | .error _, .ok _ => isFalse (fun hc => Except.noConfusion hc)
    | .ok _, .error _ => isFalse (fun hc => Except.noConfusion hc)

/-! ## Helper lemmas -/

theorem intersected_eq_true_iff (a b : Rect) :
    intersected a b = true ↔
      a.x ≤ b.x + b.w ∧ b.x ≤ a.x + a.w ∧ a.y ≤ b.y + b.h ∧ b.y ≤ a.y + a.h := by
  simp only [intersected, Bool.not_eq_true', Bool.or_eq_false_iff,
    decide_eq_false_iff_not, not_lt]
  tauto

theorem placeOnPage_id (p : Page) (o : SvgObj) : (placeOnPage p o).id = o.id := by
  unfold placeOnPage; split <;> rfl

theorem placeOnPage_x (p : Page) (o : SvgObj) : (placeOnPage p o).x = o.x := by
  unfold placeOnPage; split <;> rfl

theorem placeOnPage_y (p : Page) (o : SvgObj) : (placeOnPage p o).y = o.y := by
  unfold placeOnPage; split <;> rfl

theorem placeOnPage_w (p : Page) (o : SvgObj) : (placeOnPage p o).w = o.w := by
  unfold placeOnPage; split <;> rfl

theorem placeOnPage_h (p : Page) (o : SvgObj) : (placeOnPage p o).h = o.h := by
  unfold placeOnPage; split <;> rfl

theorem placeOnPage_rect (p : Page) (o : SvgObj) : (placeOnPage p o).rect = o.rect := by
  unfold placeOnPage; split <;> rfl

theorem placeOnPage_page_locs (p : Page) (o : SvgObj) :
    (placeOnPage p o).page_locs =
      o.page_locs ++
        (if intersected p.rect o.rect then
          [⟨p.number, o.x - p.x, o.y - p.y⟩] else []) := by
  unfold placeOnPage; split <;> simp

theorem placeFold_eq (pages : List Page) (o : SvgObj) :
    pages.foldl (fun acc p => placeOnPage p acc) o =
      { o with page_locs := o.page_locs ++
          ((pages.filter (fun p => intersected p.rect o.rect)).map
            (fun p => ⟨p.number, o.x - p.x, o.y - p.y⟩)) } := by
  induction pages generalizing o with
  | nil => simp
  | cons p ps ih =>
    rw [List.foldl_cons, ih]
    rw [List.filter_cons]
    have hid := placeOnPage_id p o
    have hx := placeOnPage_x p o
    have hy := placeOnPage_y p o
    have hw := placeOnPage_w p o
    have hh := placeOnPage_h p o
    have hr := placeOnPage_rect p o
    have hl := placeOnPage_page_locs p o
    cases hc : intersected p.rect o.rect with
    | true =>
      cases hpl : placeOnPage p o with
      | mk i x y w h locs =>
        rw [hpl] at hid hx hy hw hh hr hl
        simp only [hc, if_true] at hl
        simp_all [List.append_assoc]
    | false =>
      cases hpl : placeOnPage p o with
      | mk i x y w h locs =>
        rw [hpl] at hid hx hy hw hh hr hl
        simp only [hc, if_false] at hl
        simp_all

theorem resolvePlacements_eq_map (pages : List Page) (objs : List SvgObj) :
    resolvePlacements pages objs =
      objs.map fun o => pages.foldl (fun acc p => placeOnPage p acc) o := by
  unfold resolvePlacements
  induction pages generalizing objs with
  | nil => simp
  | cons p ps ih =>
    rw [List.foldl_cons, ih, List.map_map]
    rfl

/-! ## C3: closed-interval intersection and placement -/

/-- C3: the placement intersection test is closed-interval — `intersected`
returns true exactly when the closed rectangles share a point (edge-touching
counts); page [0,0,10,10] and object [10,0,5,5] count as intersecting; and
the placement loop gives every object one PageLocation per intersecting page
with unclipped local coordinates = object origin − page origin. -/
theorem c3_closed_intersection_and_placement (a b : Rect) (pages : List Page)
    (objs : List SvgObj)
    (haw : 0 ≤ a.w) (hah : 0 ≤ a.h) (hbw : 0 ≤ b.w) (hbh : 0 ≤ b.h) :
    (intersected a b = true ↔
      ∃ qx qy : ℚ,
        (a.x ≤ qx ∧ qx ≤ a.x + a.w ∧ a.y ≤ qy ∧ qy ≤ a.y + a.h) ∧
        (b.x ≤ qx ∧ qx ≤ b.x + b.w ∧ b.y ≤ qy ∧ qy ≤ b.y + b.h)) ∧
    intersected ⟨0, 0, 10, 10⟩ ⟨10, 0, 5, 5⟩ = true ∧
    resolvePlacements pages objs =
      objs.map (fun o =>
        { o with page_locs := o.page_locs ++
            ((pages.filter (fun p => intersected p.rect o.rect)).map
              (fun p => ⟨p.number, o.x - p.x, o.y - p.y⟩)) }) := by
  refine ⟨?_, by norm_num [intersected], ?_⟩
  · rw [intersected_eq_true_iff]
    constructor
    · rintro ⟨h1, h2, h3, h4⟩
      refine ⟨max a.x b.x, max a.y b.y,
        ⟨le_max_left _ _, ?_, le_max_left _ _, ?_⟩,
        le_max_right _ _, ?_, le_max_right _ _, ?_⟩
      · exact max_le (le_add_of_nonneg_right haw) h2
      · exact max_le (le_add_of_nonneg_right hah) h4
      · exact max_le h1 (le_add_of_nonneg_right hbw)
      · exact max_le h3 (le_add_of_nonneg_right hbh)
    · rintro ⟨qx, qy, ⟨ha1, ha2, ha3, ha4⟩, hb1, hb2, hb3, hb4⟩
      exact ⟨le_trans ha1 hb2, le_trans hb1 ha2, le_trans ha3 hb4,
        le_trans hb3 ha4⟩
  · rw [resolvePlacements_eq_map]
    exact congrArg (fun f => objs.map f) (funext fun o => placeFold_eq pages o)

/-- Witness for C3 at the spec's own example: the edge-touching page and
object rectangles satisfy the nonnegativity hypotheses and are intersecting. -/
theorem c3_closed_intersection_and_placement_inst :
    (0 : ℚ) ≤ 10 ∧ intersected ⟨0, 0, 10, 10⟩ ⟨10, 0, 5, 5⟩ = true :=
  ⟨by norm_num,
    (c3_closed_intersection_and_placement ⟨0, 0, 10, 10⟩ ⟨10, 0, 5, 5⟩ [] []
      (by norm_num) (by norm_num) (by norm_num) (by norm_num)).2.1⟩

/-! ## C4: unit resolution -/

/-- C4 counterexample: on width="100mm", height="50", viewBox 0 0 10 10 the
resolver yields pixel width 377.95 — not the 3779.5 the claim states — and
x_scale 37.795, not 377.95. -/
theorem c4_unit_example_cex :
    resolveGeometry ⟨some (100, some .mm), some (50, none), some (0, 0, 10, 10)⟩ =
      .ok ⟨37795 / 100, 50, 37795 / 1000, 5⟩ ∧
    (37795 / 100 : ℚ) ≠ 37795 / 10 ∧ (37795 / 1000 : ℚ) ≠ 37795 / 100 := by
  refine ⟨?_, by norm_num, by norm_num⟩
  simp only [resolveGeometry, unit_2_px, Option.getD]
  norm_num

/-- C4 (amended): unit resolution follows the fixed pixels-per-unit table
(px=1, pt=1.33333333333333, mm=3.7795, pc=16, cm=37.795, in=96; a missing
unit means px) with per-axis scale = pixel size / viewbox extent; for
width="100mm", height="50" (unitless) and viewbox 0 0 10 10 this yields
pixel width 377.95, pixel height 50, x_scale 37.795, y_scale 5. -/
theorem c4_unit_resolution :
    unit_2_px .px = 1 ∧
    unit_2_px .pt = 133333333333333 / 100000000000000 ∧
    unit_2_px .mm = 37795 / 10000 ∧
    unit_2_px .pc = 16 ∧
    unit_2_px .cm = 37795 / 1000 ∧
    unit_2_px .inch = 96 ∧
    (∀ (w h vx vy vw vh : ℚ) (wu hu : Option SvgUnit),
      resolveGeometry ⟨some (w, wu), some (h, hu), some (vx, vy, vw, vh)⟩ =
        .ok ⟨unit_2_px (wu.getD .px) * w, unit_2_px (hu.getD .px) * h,
             unit_2_px (wu.getD .px) * w / vw,
             unit_2_px (hu.getD .px) * h / vh⟩) ∧
    resolveGeometry ⟨some (100, some .mm), some (50, none), some (0, 0, 10, 10)⟩ =
      .ok ⟨37795 / 100, 50, 37795 / 1000, 5⟩ := by
  refine ⟨rfl, rfl, rfl, rfl, rfl, rfl, fun w h vx vy vw vh wu hu => rfl, ?_⟩
  simp only [resolveGeometry, unit_2_px, Option.getD]
  norm_num

/-! ## C8: failure behaviour on malformed geometry -/

/-- C8 counterexample: with the width attribute absent the resolver raises
AttributeError, and the top-level runner turns it into an unhandled
traceback, not the uniform `error: ...` failure. -/
theorem c8_uniform_failure_cex :
    resolveGeometry ⟨none, some (50, none), some (0, 0, 10, 10)⟩ =
      .error .attributeError ∧
    runTop ((resolveGeometry
      ⟨none, some (50, none), some (0, 0, 10, 10)⟩).map (fun _ => ())) =
      .traceback ∧
    (Outcome.traceback).isUniformFailure = false :=
  ⟨rfl, rfl, rfl⟩

/-- C8 (amended): if the root element's width, height, or viewbox attribute
is absent or non-numeric, the program aborts with an unhandled
AttributeError (so no output is written), not with the uniform failure;
the uniform human-readable `error: ...` message is produced only for
exceptions of the program's own Error class. -/
theorem c8_malformed_geometry_aborts (root : SvgRoot)
    (h : root.width = none ∨ root.height = none ∨ root.viewBox = none) :
    resolveGeometry root = .error .attributeError ∧
    runTop ((resolveGeometry root).map (fun _ => ())) = .traceback ∧
    (∀ m : String, runTop (.error (.error m)) = .uniformFailure ("error: " ++ m)) := by
  obtain ⟨wd, ht, vb⟩ := root
  have hres : resolveGeometry ⟨wd, ht, vb⟩ = .error .attributeError := by
    rcases h with h | h | h <;> simp only at h <;> subst h
    · rfl
    · rcases wd with _ | ⟨w, wu⟩ <;> rfl
    · rcases wd with _ | ⟨w, wu⟩ <;> rcases ht with _ | ⟨hh, hu⟩ <;> rfl
  refine ⟨hres, ?_, fun m => rfl⟩
  rw [hres]
  rfl

/-- Witness for C8 (amended) with the width attribute absent. -/
theorem c8_malformed_geometry_aborts_inst :
    ((⟨none, some (50, none), some (0, 0, 10, 10)⟩ : SvgRoot).width = none ∨
      (⟨none, some (50, none), some (0, 0, 10, 10)⟩ : SvgRoot).height = none ∨
      (⟨none, some (50, none), some (0, 0, 10, 10)⟩ : SvgRoot).viewBox = none) ∧
    runTop ((resolveGeometry
      ⟨none, some (50, none), some (0, 0, 10, 10)⟩).map (fun _ => ())) =
      .traceback :=
  ⟨Or.inl rfl,
    (c8_malformed_geometry_aborts ⟨none, some (50, none), some (0, 0, 10, 10)⟩
      (Or.inl rfl)).2.1⟩

/-! ## C2 and C10: internal-target handling -/

theorem foldl_maxByY_mem (l : PageLoc) (ls : List PageLoc) :
    ls.foldl (fun best q => if best.y < q.y then q else best) l ∈ l :: ls := by
  induction ls generalizing l with
  | nil => simp
  | cons q qs ih =>
    rw [List.foldl_cons]
    rcases List.mem_cons.1 (ih (if l.y < q.y then q else l)) with h | h
    · rw [h]
      split
      · simp
      · simp
    · exact List.mem_cons_of_mem _ (List.mem_cons_of_mem _ h)

theorem foldl_maxByY_ge (l : PageLoc) (ls : List PageLoc) :
    ∀ x ∈ l :: ls,
      x.y ≤ (ls.foldl (fun best q => if best.y < q.y then q else best) l).y := by
  induction ls generalizing l with
  | nil =>
    intro x hx
    rw [List.mem_singleton] at hx
    subst hx
    exact le_refl _
  | cons q qs ih =>
    intro x hx
    rw [List.foldl_cons]
    have hlm : l.y ≤ (if l.y < q.y then q else l).y := by
      split
      · exact le_of_lt (by assumption)
      · exact le_refl _
    have hqm : q.y ≤ (if l.y < q.y then q else l).y := by
      split
      · exact le_refl _
      · exact le_of_not_lt (by assumption)
    have hmf := ih (if l.y < q.y then q else l) _
      (List.mem_cons_self (if l.y < q.y then q else l) qs)
    rcases List.mem_cons.1 hx with h | h
    · subst h
      exact le_trans hlm hmf
    · rcases List.mem_cons.1 h with h2 | h2
      · subst h2
        exact le_trans hqm hmf
      · exact ih _ x (List.mem_cons_of_mem _ h2)

theorem pyMaxByY_spec (locs : List PageLoc) (loc : PageLoc)
    (h : pyMaxByY locs = some loc) :
    loc ∈ locs ∧ ∀ l ∈ locs, l.y ≤ loc.y := by
  cases locs with
  | nil => simp [pyMaxByY] at h
  | cons l ls =>
    have hfold : ls.foldl (fun best q => if best.y < q.y then q else best) l = loc :=
      Option.some.inj h
    subst hfold
    exact ⟨foldl_maxByY_mem l ls, foldl_maxByY_ge l ls⟩

/-- C2: for an internal link whose destination exists and has a non-empty
PageLocation list, the synthesizer selects the PageLocation with the
greatest local-y and builds a go-to action addressing that page's page
object at point (local-x, page-height − local-y), both scaled by 0.75. -/
theorem c2_goto_targets_highest_loc (objects : List SvgObj) (pages : List Page)
    (pps : List (Nat × PdfPage)) (href : String) (target : SvgObj)
    (loc : PageLoc) (page : Page) (pp : PdfPage)
    (h1 : pyStartsWith "#" href = true)
    (h2 : findObj objects (pyDrop1 href) = some target)
    (h3 : pyMaxByY target.page_locs = some loc)
    (h4 : findPage pages loc.page = some page)
    (h5 : findPdfPage pps page.number = some pp) :
    loc ∈ target.page_locs ∧
    (∀ l ∈ target.page_locs, l.y ≤ loc.y) ∧
    buildAction objects pages pps href =
      .ok (some (.goTo pp.obj_id pp.obj_gen (loc.x * px_to_pt)
        ((page.h - loc.y) * px_to_pt))) := by
  obtain ⟨hmem, hge⟩ := pyMaxByY_spec _ _ h3
  refine ⟨hmem, hge, ?_⟩
  unfold buildAction
  simp [h1, h2, h3, h4, h5]

/-- Witness for C2: candidate PageLocations {page 1, y 50} and {page 2, y 80}
make the synthesizer select page 2 and emit the corresponding go-to. -/
theorem c2_goto_targets_highest_loc_inst :
    pyMaxByY [⟨1, 3, 50⟩, ⟨2, 4, 80⟩] = some ⟨2, 4, 80⟩ ∧
    buildAction [⟨"t", 0, 0, 1, 1, [⟨1, 3, 50⟩, ⟨2, 4, 80⟩]⟩]
        [⟨1, 0, 0, 10, 100⟩, ⟨2, 0, 100, 10, 200⟩]
        [(1, ⟨5, 0⟩), (2, ⟨7, 0⟩)] "#t" =
      .ok (some (.goTo 7 0 ((4 : ℚ) * px_to_pt) (((200 : ℚ) - 80) * px_to_pt))) := by
  have h3 : pyMaxByY [⟨1, 3, 50⟩, ⟨2, 4, 80⟩] = some ⟨2, 4, 80⟩ := by
    norm_num [pyMaxByY]
  refine ⟨h3, (c2_goto_targets_highest_loc
    [⟨"t", 0, 0, 1, 1, [⟨1, 3, 50⟩, ⟨2, 4, 80⟩]⟩]
    [⟨1, 0, 0, 10, 100⟩, ⟨2, 0, 100, 10, 200⟩]
    [(1, ⟨5, 0⟩), (2, ⟨7, 0⟩)] "#t"
    ⟨"t", 0, 0, 1, 1, [⟨1, 3, 50⟩, ⟨2, 4, 80⟩]⟩ ⟨2, 4, 80⟩
    ⟨2, 0, 100, 10, 200⟩ ⟨7, 0⟩ rfl rfl h3 rfl rfl).2.2⟩

/-- C10: with an internal target, the recoverable skip branch (`.ok none`,
the warn-and-continue path) is taken exactly when the destination id is
absent from the object catalog, and for a destination that is present the
page selection raises `ValueError` exactly when its PageLocation list is
empty — so synthesis is total only when every resolved internal target has
at least one PageLocation. -/
theorem c10_skip_iff_missing_target (objects : List SvgObj) (pages : List Page)
    (pps : List (Nat × PdfPage)) (href : String) (target : SvgObj)
    (h1 : pyStartsWith "#" href = true) :
    (buildAction objects pages pps href = .ok none ↔
      findObj objects (pyDrop1 href) = none) ∧
    (findObj objects (pyDrop1 href) = some target →
      (target.page_locs = [] ↔
        buildAction objects pages pps href = .error .valueError)) := by
  constructor
  · unfold buildAction
    simp only [h1, if_true]
    cases hfo : findObj objects (pyDrop1 href) with
    | none => simp
    | some t =>
      cases hmax : pyMaxByY t.page_locs with
      | none => simp [hmax]
      | some loc =>
        cases hfp : findPage pages loc.page with
        | none => simp [hmax, hfp]
        | some page =>
          cases hpp : findPdfPage pps page.number with
          | none => simp [hmax, hfp, hpp]
          | some pdfp => simp [hmax, hfp, hpp]
  · intro hfo
    constructor
    · intro hnil
      unfold buildAction
      simp [h1, hfo, hnil, pyMaxByY]
    · intro herr
      cases hpl : target.page_locs with
      | nil => rfl
      | cons l ls =>
        exfalso
        unfold buildAction at herr
        simp only [h1, if_true, hfo, hpl, pyMaxByY] at herr
        cases hfp : findPage pages
            ((ls.foldl (fun best q => if best.y < q.y then q else best) l).page) with
        | none => rw [hfp] at herr; exact PyExc.noConfusion (Except.error.inj herr)
        | some page =>
          rw [hfp] at herr
          cases hpp : findPdfPage pps page.number with
          | none => simp [hpp] at herr
          | some pdfp => simp [hpp] at herr

/-- Witness for C10: a cataloged destination with an empty PageLocation list
drives the page-selection step into `ValueError`. -/
theorem c10_skip_iff_missing_target_inst :
    pyStartsWith "#" "#t" = true ∧
    (([] : List PageLoc) = [] ↔
      buildAction [⟨"t", 0, 0, 1, 1, []⟩] [] [] "#t" = .error .valueError) :=
  ⟨rfl, (c10_skip_iff_missing_target [⟨"t", 0, 0, 1, 1, []⟩] [] [] "#t"
    ⟨"t", 0, 0, 1, 1, []⟩ rfl).2 rfl⟩

/-! ## C1 and C5: draft emission, rectangles, and object ids -/

theorem findPages_length (pages : List Page) (locs : List PageLoc)
    (ps : List Page) (h : findPages pages locs = some ps) :
    ps.length = locs.length := by
  induction locs generalizing ps with
  | nil =>
    simp only [findPages] at h
    obtain rfl := Option.some.inj h
    rfl
  | cons loc rest ih =>
    unfold findPages at h
    cases hfp : findPage pages loc.page with
    | none => rw [hfp] at h; exact Option.noConfusion h
    | some page =>
      rw [hfp] at h
      cases hfs : findPages pages rest with
      | none => rw [hfs] at h; exact Option.noConfusion h
      | some ps2 =>
        rw [hfs] at h
        obtain rfl := Option.some.inj h
        simp [ih ps2 hfs]

theorem emitDrafts_ok (pages : List Page) (a : PdfAction) (o : SvgObj)
    (locs : List PageLoc) (ps : List Page) (n : Nat)
    (h : findPages pages locs = some ps) :
    emitDrafts pages a o locs n =
      .ok (List.zipWith
        (fun (lp : PageLoc × Page) (i : Nat) =>
          { objId := i
            page := lp.1.page
            action := a
            rect := [lp.1.x * px_to_pt, (lp.2.h - lp.1.y) * px_to_pt,
                     (lp.1.x + o.w) * px_to_pt,
                     (lp.2.h - lp.1.y - o.h) * px_to_pt] })
        (locs.zip ps) (List.range' n locs.length),
        n + locs.length) := by
  induction locs generalizing ps n with
  | nil =>
    simp only [findPages] at h
    obtain rfl := Option.some.inj h
    simp [emitDrafts]
  | cons loc rest ih =>
    unfold findPages at h
    cases hfp : findPage pages loc.page with
    | none => rw [hfp] at h; exact Option.noConfusion h
    | some page =>
      rw [hfp] at h
      cases hfs : findPages pages rest with
      | none => rw [hfs] at h; exact Option.noConfusion h
      | some ps2 =>
        rw [hfs] at h
        obtain rfl := Option.some.inj h
        unfold emitDrafts
        rw [hfp, ih ps2 (n + 1) hfs]
        simp only [List.zip_cons_cons, List.length_cons, List.range'_succ,
          List.zipWith_cons_cons]
        have hn : n + 1 + rest.length = n + (rest.length + 1) := by omega
        rw [hn]

/-- C1 counterexample: for a source with one PageLocation on a page of
height 10, local x 1, local y 2, object width 3 and height 5, the emitted
`/Rect` is [3/4, 6, 3, 9/4] — its second component is
(page-height−local-y)·0.75 = 6 and its fourth is
(page-height−local-y−height)·0.75 = 9/4 — which differs from the claimed
order [3/4, 9/4, 3, 6] with the flipped-bottom value second. -/
theorem c1_rect_order_cex :
    emitDrafts [⟨1, 0, 0, 40, 10⟩] (.uri "u") ⟨"s", 1, 2, 3, 5, [⟨1, 1, 2⟩]⟩
        [⟨1, 1, 2⟩] 9 =
      .ok ([⟨9, 1, .uri "u", [3/4, 6, 3, 9/4]⟩], 10) ∧
    ([3/4, 6, 3, 9/4] : List ℚ) ≠ [3/4, 9/4, 3, 6] := by
  constructor
  · simp only [emitDrafts, findPage, List.find?, px_to_pt]
    norm_num
  · intro hcontra
    exact absurd hcontra (by norm_num)

/-- C1 (amended): for every cataloged link whose source object's
PageLocations all lie on known pages, the synthesizer emits exactly one
Annotation Draft per PageLocation, each with owning page equal to that
location's page, a freshly allocated object id, and rectangle
[local-x, page-height−local-y, local-x+width, page-height−local-y−height]
(top edge second, flipped bottom edge fourth — the claim's second and
fourth components exchanged), every component multiplied by 0.75. -/
theorem c1_one_draft_per_location (pages : List Page) (a : PdfAction)
    (o : SvgObj) (n : Nat) (ps : List Page)
    (h : findPages pages o.page_locs = some ps) :
    emitDrafts pages a o o.page_locs n =
      .ok (List.zipWith
        (fun (lp : PageLoc × Page) (i : Nat) =>
          { objId := i
            page := lp.1.page
            action := a
            rect := [lp.1.x * px_to_pt, (lp.2.h - lp.1.y) * px_to_pt,
                     (lp.1.x + o.w) * px_to_pt,
                     (lp.2.h - lp.1.y - o.h) * px_to_pt] })
        (o.page_locs.zip ps) (List.range' n o.page_locs.length),
        n + o.page_locs.length) ∧
    (List.zipWith
        (fun (lp : PageLoc × Page) (i : Nat) =>
          ({ objId := i
             page := lp.1.page
             action := a
             rect := [lp.1.x * px_to_pt, (lp.2.h - lp.1.y) * px_to_pt,
                      (lp.1.x + o.w) * px_to_pt,
                      (lp.2.h - lp.1.y - o.h) * px_to_pt] } : Draft))
        (o.page_locs.zip ps) (List.range' n o.page_locs.length)).length =
      o.page_locs.length := by
  refine ⟨emitDrafts_ok pages a o o.page_locs ps n h, ?_⟩
  have hlen := findPages_length pages o.page_locs ps h
  simp [List.length_zip, List.length_range', hlen]

/-- Witness for C1 at a concrete one-location source object. -/
theorem c1_one_draft_per_location_inst :
    findPages [⟨1, 0, 0, 40, 10⟩]
        (SvgObj.page_locs ⟨"s", 1, 2, 3, 5, [⟨1, 1, 2⟩]⟩) =
      some [⟨1, 0, 0, 40, 10⟩] ∧
    emitDrafts [⟨1, 0, 0, 40, 10⟩] (.uri "v") ⟨"s", 1, 2, 3, 5, [⟨1, 1, 2⟩]⟩
        (SvgObj.page_locs ⟨"s", 1, 2, 3, 5, [⟨1, 1, 2⟩]⟩) 9 =
      .ok (List.zipWith
        (fun (lp : PageLoc × Page) (i : Nat) =>
          { objId := i
            page := lp.1.page
            action := .uri "v"
            rect := [lp.1.x * px_to_pt, (lp.2.h - lp.1.y) * px_to_pt,
                     (lp.1.x + (3 : ℚ)) * px_to_pt,
                     (lp.2.h - lp.1.y - (5 : ℚ)) * px_to_pt] })
        ([⟨1, 1, 2⟩].zip [⟨1, 0, 0, 40, 10⟩]) (List.range' 9 1), 9 + 1) :=
  ⟨rfl, (c1_one_draft_per_location [⟨1, 0, 0, 40, 10⟩] (.uri "v")
    ⟨"s", 1, 2, 3, 5, [⟨1, 1, 2⟩]⟩ 9 [⟨1, 0, 0, 40, 10⟩] rfl).1⟩

theorem emitDrafts_ids (pages : List Page) (a : PdfAction) (o : SvgObj)
    (locs : List PageLoc) (n : Nat) (ds : List Draft) (n2 : Nat)
    (h : emitDrafts pages a o locs n = .ok (ds, n2)) :
    n2 = n + ds.length ∧ ds.map Draft.objId = List.range' n ds.length := by
  induction locs generalizing n ds n2 with
  | nil =>
    simp only [emitDrafts] at h
    obtain ⟨rfl, rfl⟩ := Prod.mk.injEq .. ▸ Except.ok.inj h
    simp
  | cons loc rest ih =>
    unfold emitDrafts at h
    cases hfp : findPage pages loc.page with
    | none => rw [hfp] at h; exact Except.noConfusion h
    | some page =>
      rw [hfp] at h
      cases hrec : emitDrafts pages a o rest (n + 1) with
      | error e => rw [hrec] at h; exact Except.noConfusion h
      | ok pair =>
        obtain ⟨ds2, n3⟩ := pair
        rw [hrec] at h
        obtain ⟨hds, hn⟩ := Prod.mk.injEq .. ▸ Except.ok.inj h
        obtain ⟨ih1, ih2⟩ := ih (n + 1) ds2 n3 hrec
        subst hds hn
        constructor
        · simp only [List.length_cons]
          omega
        · simp only [List.map_cons, ih2, List.length_cons, List.range'_succ]

theorem addLinks_ids (objects : List SvgObj) (pages : List Page)
    (pps : List (Nat × PdfPage)) (links : List (String × String))
    (n : Nat) (ds : List Draft) (n2 : Nat)
    (h : addLinks objects pages pps links n = .ok (ds, n2)) :
    n2 = n + ds.length ∧ ds.map Draft.objId = List.range' n ds.length := by
  induction links generalizing n ds n2 with
  | nil =>
    simp only [addLinks] at h
    obtain ⟨rfl, rfl⟩ := Prod.mk.injEq .. ▸ Except.ok.inj h
    simp
  | cons kv rest ih =>
    obtain ⟨link_id, link_href⟩ := kv
    unfold addLinks at h
    cases hfo : findObj objects link_id with
    | none =>
      rw [hfo] at h
      exact ih n ds n2 h
    | some link_object =>
      simp only [hfo] at h
      cases hba : buildAction objects pages pps link_href with
      | error e => simp only [hba] at h; exact Except.noConfusion h
      | ok aopt =>
        simp only [hba] at h
        cases aopt with
        | none => exact ih n ds n2 h
        | some a =>
          cases hed : emitDrafts pages a link_object link_object.page_locs n with
          | error e => simp only [hed] at h; exact Except.noConfusion h
          | ok pair1 =>
            obtain ⟨ds1, m⟩ := pair1
            simp only [hed] at h
            cases hal : addLinks objects pages pps rest m with
            | error e => simp only [hal] at h; exact Except.noConfusion h
            | ok pair2 =>
              obtain ⟨ds2, n3⟩ := pair2
              simp only [hal] at h
              obtain ⟨hds, hn⟩ := Prod.mk.injEq .. ▸ Except.ok.inj h
              obtain ⟨he1, he2⟩ := emitDrafts_ids pages a link_object
                link_object.page_locs n ds1 m hed
              obtain ⟨ha1, ha2⟩ := ih m ds2 n3 hal
              subst hds hn
              constructor
              · simp only [List.length_append]
                omega
              · rw [List.map_append, he2, ha2, he1]
                rw [List.length_append]
                have := List.range'_append n ds1.length ds2.length 1
                simp only [one_mul] at this
                rw [Nat.add_comm ds1.length ds2.length, ← this]

/-- C5: starting from the cross-reference table's declared object count as
the next free id, every synthesized annotation object consumes one freshly
allocated id; after synthesis the next-free-id counter equals its
pre-synthesis value plus the number of synthesized objects, the allocated
ids are pairwise distinct, and none collides with a pre-existing id (all of
which lie below the declared count). -/
theorem c5_id_allocation (objects : List SvgObj) (pages : List Page)
    (pps : List (Nat × PdfPage)) (links : List (String × String))
    (xrefCount : Nat) (preIds : List Nat) (ds : List Draft) (n2 : Nat)
    (h : addLinks objects pages pps links xrefCount = .ok (ds, n2))
    (hpre : ∀ i ∈ preIds, i < xrefCount) :
    n2 = xrefCount + ds.length ∧
    ds.map Draft.objId = List.range' xrefCount ds.length ∧
    (ds.map Draft.objId).Nodup ∧
    (∀ i ∈ ds.map Draft.objId, xrefCount ≤ i ∧ i ∉ preIds) := by
  obtain ⟨h1, h2⟩ := addLinks_ids objects pages pps links xrefCount ds n2 h
  refine ⟨h1, h2, ?_, ?_⟩
  · rw [h2]
    exact List.nodup_range' xrefCount ds.length
  · intro i hi
    rw [h2, List.mem_range'_1] at hi
    exact ⟨hi.1, fun hmem => absurd (hpre i hmem) (by omega)⟩

/-- Witness for C5: one external link on one page allocates exactly id 10
starting from a declared object count of 10, ending at 11, avoiding the
pre-existing ids. -/
theorem c5_id_allocation_inst :
    addLinks [⟨"a", 1, 1, 2, 2, [⟨1, 1, 1⟩]⟩] [⟨1, 0, 0, 10, 10⟩]
        [(1, ⟨3, 0⟩)] [("a", "u")] 10 =
      .ok ([⟨10, 1, .uri "u", [3/4, 27/4, 9/4, 21/4]⟩], 11) ∧
    (∀ i ∈ [7, 8, 9], i < 10) ∧
    11 = 10 + ([⟨10, 1, .uri "u",
      ([3/4, 27/4, 9/4, 21/4] : List ℚ)⟩] : List Draft).length := by
  have hfo : findObj [⟨"a", 1, 1, 2, 2, [⟨1, 1, 1⟩]⟩] "a" =
      some ⟨"a", 1, 1, 2, 2, [⟨1, 1, 1⟩]⟩ := by decide
  have hsw : pyStartsWith "#" "u" = false := rfl
  have hba : buildAction [⟨"a", 1, 1, 2, 2, [⟨1, 1, 1⟩]⟩] [⟨1, 0, 0, 10, 10⟩]
      [(1, ⟨3, 0⟩)] "u" = .ok (some (.uri "u")) := by
    unfold buildAction
    simp [hsw]
  have hem : emitDrafts [⟨1, 0, 0, 10, 10⟩] (.uri "u")
      ⟨"a", 1, 1, 2, 2, [⟨1, 1, 1⟩]⟩ [⟨1, 1, 1⟩] 10 =
      .ok ([⟨10, 1, .uri "u", [3/4, 27/4, 9/4, 21/4]⟩], 11) := by
    simp only [emitDrafts, findPage, List.find?, px_to_pt]
    norm_num
  have hrun : addLinks [⟨"a", 1, 1, 2, 2, [⟨1, 1, 1⟩]⟩] [⟨1, 0, 0, 10, 10⟩]
      [(1, ⟨3, 0⟩)] [("a", "u")] 10 =
      .ok ([⟨10, 1, .uri "u", [3/4, 27/4, 9/4, 21/4]⟩], 11) := by
    unfold addLinks
    simp only [hfo, hba, hem]
    rfl
  refine ⟨hrun, by decide, ?_⟩
  exact (c5_id_allocation [⟨"a", 1, 1, 2, 2, [⟨1, 1, 1⟩]⟩] [⟨1, 0, 0, 10, 10⟩]
    [(1, ⟨3, 0⟩)] [("a", "u")] 10 [7, 8, 9]
    [⟨10, 1, .uri "u", [3/4, 27/4, 9/4, 21/4]⟩] 11 hrun (by decide)).1

/-! ## C9: link-catalog escaping -/

theorem lookupLink_map_set (L : List (String × String)) (k v : String)
    (h : L.any (fun kv => kv.1 = k) = true) :
    lookupLink (L.map (fun kv => if kv.1 = k then (k, v) else kv)) k = some v := by
  induction L with
  | nil => simp at h
  | cons kv rest ih =>
    by_cases hk : kv.1 = k
    · simp [lookupLink, List.find?, hk]
    · simp only [List.any_cons, Bool.or_eq_true, decide_eq_true_eq] at h
      rcases h with h | h
    
      · exact absurd h hk
      · simp only [List.map_cons, lookupLink, List.find?, if_neg hk]
        rw [decide_eq_false hk]
        exact ih h

theorem lookupLink_append_new (L : List (String × String)) (k v : String)
    (h : L.any (fun kv => kv.1 = k) = false) :
    lookupLink (L ++ [(k, v)]) k = some v := by
  induction L with
  | nil => simp [lookupLink, List.find?]
  | cons kv rest ih =>
    simp only [List.any_cons, Bool.or_eq_false_iff, decide_eq_false_iff_not] at h
    simp only [List.cons_append, lookupLink, List.find?, decide_eq_false h.1]
    exact ih (by simp [h.2])

theorem lookupLink_dictSet (L : List (String × String)) (k v : String) :
    lookupLink (dictSet L k v) k = some v := by
  unfold dictSet
  cases hany : L.any (fun kv => kv.1 = k) with
  | true => rw [if_pos rfl]; exact lookupLink_map_set L k v hany
  | false =>
    rw [if_neg (fun hcontra => Bool.noConfusion hcontra)]
    exact lookupLink_append_new L k v hany

theorem buildLinks_append_one (as : List (Option String × Option String))
    (i h : String) :
    buildLinks (as ++ [(some i, some h)]) =
      dictSet (buildLinks as) i (escapeHref h) := by
  unfold buildLinks
  rw [List.foldl_append]
  rfl

/-- C9 counterexample: parenthesis escaping is applied to internal targets
too, at catalog time, so the destination id used for lookup is the escaped
target with the marker stripped, not the raw one: for the anchor target
`#x(1)` the stored href is `#x%281%29`, the lookup id is `x%281%29` ≠
`x(1)`, and although an object with id `x(1)` is cataloged (with a
PageLocation), the link is skipped and no draft is emitted. -/
theorem c9_internal_escaping_cex :
    buildLinks [(some "s", some "#x(1)")] = [("s", "#x%281%29")] ∧
    pyDrop1 "#x%281%29" = "x%281%29" ∧
    ("x%281%29" : String) ≠ "x(1)" ∧
    findObj [⟨"s", 0, 0, 1, 1, [⟨1, 0, 0⟩]⟩, ⟨"x(1)", 0, 0, 1, 1, [⟨1, 0, 0⟩]⟩]
      "x(1)" ≠ none ∧
    addLinks [⟨"s", 0, 0, 1, 1, [⟨1, 0, 0⟩]⟩, ⟨"x(1)", 0, 0, 1, 1, [⟨1, 0, 0⟩]⟩]
      [⟨1, 0, 0, 10, 10⟩] [(1, ⟨3, 0⟩)]
      (buildLinks [(some "s", some "#x(1)")]) 5 = .ok ([], 5) := by
  refine ⟨by decide, rfl, by decide, by decide, by decide⟩

/-- C9 (amended): percent-escaping of literal ( and ) is applied to every
target at catalog time, before internal/external classification: a
cataloged anchor stores the escaped target; an internal link's destination
lookup uses the stored escaped target with the marker stripped (the skip
branch fires exactly when that escaped id is absent); an external target
yields an open-URI action carrying the escaped URI, so http://x/(a) appears
as http://x/%28a%29 in the action body. -/
theorem c9_targets_escaped_at_catalog
    (as : List (Option String × Option String)) (i raw : String)
    (objects : List SvgObj) (pages : List Page) (pps : List (Nat × PdfPage))
    (href : String) (hin : pyStartsWith "#" href = true) :
    lookupLink (buildLinks (as ++ [(some i, some raw)])) i =
      some (escapeHref raw) ∧
    (buildAction objects pages pps href = .ok none ↔
      findObj objects (pyDrop1 href) = none) ∧
    escapeHref "http://x/(a)" = "http://x/%28a%29" ∧
    buildAction objects pages pps (escapeHref "http://x/(a)") =
      .ok (some (.uri "http://x/%28a%29")) := by
  refine ⟨?_, ?_, rfl, ?_⟩
  · rw [buildLinks_append_one]
    exact lookupLink_dictSet (buildLinks as) i (escapeHref raw)
  · unfold buildAction
    simp only [hin, if_true]
    cases hfo : findObj objects (pyDrop1 href) with
    | none => simp
    | some t =>
      cases hmax : pyMaxByY t.page_locs with
      | none => simp [hmax]
      | some loc =>
        cases hfp : findPage pages loc.page with
        | none => simp [hmax, hfp]
        | some page =>
          cases hpp : findPdfPage pps page.number with
          | none => simp [hmax, hfp, hpp]
          | some pdfp => simp [hmax, hfp, hpp]
  · have hsw : pyStartsWith "#" (escapeHref "http://x/(a)") = false := rfl
    unfold buildAction
    rw [hsw]
    simp only [Bool.false_eq_true, if_false]
    decide

/-- Witness for C9 at a concrete anchor and external URI. -/
theorem c9_targets_escaped_at_catalog_inst :
    pyStartsWith "#" "#t" = true ∧
    lookupLink (buildLinks ([] ++ [(some "s", some "#x(1)")])) "s" =
      some (escapeHref "#x(1)") ∧
    buildAction [] [] [] (escapeHref "http://x/(a)") =
      .ok (some (.uri "http://x/%28a%29")) :=
  ⟨rfl,
    (c9_targets_escaped_at_catalog [] "s" "#x(1)" [] [] [] "#t" rfl).1,
    (c9_targets_escaped_at_catalog [] "s" "#x(1)" [] [] [] "#t" rfl).2.2.2⟩

/-! ## C6 and C7: the QDF buffer edit -/

/-- C6 (code-bug evidence): on a page block that carries an existing
`/Annots [ 5 0 R ]` list while (5, 0) is recorded as a stale link
annotation, the rewrite callback raises `TypeError` — the nested
`load_existing_annots` assigns a variable local to itself instead of the
enclosing `raw_annots` (missing `nonlocal`) and returns `None`, which
`re.sub` rejects as a replacement — so the existing list is never parsed,
the stale reference is never dropped, and the exception propagates out of
the page-rewrite pass. -/
theorem c6_stale_reference_rewrite_crashes :
    replace_annots_for_page [(5, 0)] (fun _ => [])
      ⟨1, "%% Page 1\n%% contents\n3 0 obj\n", "\n/Type /Page\n",
        some " 5 0 R ", "\n>>\nendobj"⟩ = .error .typeError ∧
    editPages [(5, 0)] (fun _ => [])
      [.page ⟨1, "%% Page 1\n%% contents\n3 0 obj\n", "\n/Type /Page\n",
        some " 5 0 R ", "\n>>\nendobj"⟩] = .error .typeError :=
  ⟨rfl, rfl⟩

/-- C7 counterexample: editing a zero-link buffer is not byte-identical
outside the annotation lists — the splice pass rewrites the `xref` line to
`\nxref` even when there are no annotation objects, inserting one newline. -/
theorem c7_xref_newline_cex :
    editBuffer [] (fun _ => []) []
      [.raw "x\n", .page ⟨1, "%% Page 1\n3 0 obj\n", "\n/Type /Page\n",
        none, "\n>>\nendobj"⟩, .raw "\n\n", .xref, .raw "\n0 4\n"] =
      .ok [.raw "x\n", .page ⟨1, "%% Page 1\n3 0 obj\n", "\n/Type /Page\n",
        none, "\n>>\nendobj"⟩, .raw "\n\n", .raw "\nxref", .raw "\n0 4\n"] ∧
    renderBuf [.raw "x\n", .page ⟨1, "%% Page 1\n3 0 obj\n", "\n/Type /Page\n",
        none, "\n>>\nendobj"⟩, .raw "\n\n", .raw "\nxref", .raw "\n0 4\n"] ≠
      renderBuf [.raw "x\n", .page ⟨1, "%% Page 1\n3 0 obj\n", "\n/Type /Page\n",
        none, "\n>>\nendobj"⟩, .raw "\n\n", .xref, .raw "\n0 4\n"] :=
  ⟨by decide, by decide⟩

theorem replace_annots_nil (b : PageBlock) (hb : b.existingAnnots = none) :
    replace_annots_for_page [] (fun _ => []) b = .ok b := by
  unfold replace_annots_for_page
  rw [hb]
  rfl

theorem editPages_zero_links (parts : List BufPart)
    (h : parts.all BufPart.noExistingAnnots = true) :
    editPages [] (fun _ => []) parts = .ok parts := by
  induction parts with
  | nil => rfl
  | cons p rest ih =>
    simp only [List.all_cons, Bool.and_eq_true] at h
    unfold editPages
    have hp : editPart [] (fun _ => []) p = .ok p := by
      cases p with
      | page b =>
        have hb : b.existingAnnots = none := by
          simpa [BufPart.noExistingAnnots, Option.isNone_iff_eq_none] using h.1
        simp [editPart, replace_annots_nil b hb, Except.map]
      | raw s => rfl
      | xref => rfl
    rw [hp, ih h.2]

theorem spliceAnnots_nil (parts : List BufPart) :
    spliceAnnots [] parts = parts.map expandXref := by
  unfold spliceAnnots
  refine congrArg (fun f => List.map f parts) (funext fun p => ?_)
  cases p <;> rfl

/-- C7 (amended): editing a normalized zero-link buffer — no page block
carries an annotation-list key and nothing is recorded for deletion or
insertion — leaves every piece byte-identical, leaves every page without an
annotation-list key, except that the splice step inserts a single newline
in front of each cross-reference marker line. -/
theorem c7_zero_link_edit (parts : List BufPart)
    (h : parts.all BufPart.noExistingAnnots = true) :
    editPages [] (fun _ => []) parts = .ok parts ∧
    editBuffer [] (fun _ => []) [] parts = .ok (parts.map expandXref) ∧
    (parts.map expandXref).all BufPart.noExistingAnnots = true ∧
    (∀ p ∈ parts, renderPart (expandXref p) =
      (if p = BufPart.xref then "\n" ++ renderPart p else renderPart p)) := by
  refine ⟨editPages_zero_links parts h, ?_, ?_, ?_⟩
  · unfold editBuffer
    rw [editPages_zero_links parts h]
    simp only [Except.map]
    rw [spliceAnnots_nil]
  · rw [List.all_map]
    have hfun : (BufPart.noExistingAnnots ∘ expandXref) = BufPart.noExistingAnnots := by
      funext p
      cases p <;> rfl
    rw [hfun]
    exact h
  · intro p hp
    cases p with
    | raw s => simp [expandXref]
    | page b => simp [expandXref]
    | xref => simp [expandXref, renderPart]

/-- Witness for C7 on a concrete two-piece buffer. -/
theorem c7_zero_link_edit_inst :
    ([.raw "A", .xref] : List BufPart).all BufPart.noExistingAnnots = true ∧
    editBuffer [] (fun _ => []) [] [.raw "A", .xref] =
      .ok (([.raw "A", .xref] : List BufPart).map expandXref) :=
  ⟨by decide, (c7_zero_link_edit [.raw "A", .xref] (by decide)).2.1⟩
